import Mathlib

/-!
Verification development for the GraphVisualizer repository
(xiaoxiae/GraphVisualizer).

Shallow embedding of:
* `grafatko/utilities.py` — the `Vector` class (arity-generic list vector)
  and the `Transformation` class (pan/zoom/center viewport transform);
* `grafatko/__init__.py` — the force part of `Canvas.update`
  (tree-layer forces, gravity, pairwise repulsion/attraction, integration),
  `Canvas.mousePressEvent` (right-button branch), `Canvas.select`,
  and `Canvas.export_graph`;
* `src/__main__.py` — the legacy `TreeVisualizer`:
  `perform_simulation_iteration` (pairwise step) and `get_mouse_coordinates`.

Python floats are modelled as exact numbers: ℚ where the code only does
field arithmetic, ℝ where `sqrt` is involved (the force simulation).
Python division is partial (raises `ZeroDivisionError` on a zero divisor);
where that matters (legacy `TreeVisualizer`) division is embedded as an
`Except`-valued operation.

`grafatko/graph.py` is not part of the provided sources; the node/graph
operations it provides (`add_force`, `evaluate_forces`, `clear_forces`,
`weakly_connected`, `get_distance_from_root`, `add_vertex`,
`deselect_all`, `node_at_position`) are modelled from the spec, each with
a doc comment saying so.
-/

namespace Grafatko

/-! ## `Vector` from `grafatko/utilities.py`

The Python class stores an arbitrary-length list of numbers; we model it
as `List ℚ`.  `__add__`/`__sub__` zip the component lists (`zip` truncates
to the shorter operand), `__mul__` with a vector argument is the dot
product `sum(u * v for u, v in zip(self, other))`. -/

/-- The `Vector` value class of `grafatko/utilities.py`: a list of numeric
components. -/
def Vec : Type := List ℚ

instance : DecidableEq Vec := by
  unfold Vec
  infer_instance

/-- `Vector.__add__`: `Vector(*iter(u + v for u, v in zip(self, other)))`. -/
def Vec.add (u v : Vec) : Vec := List.zipWith (fun a b => a + b) u v

/-- `Vector.__sub__`: `Vector(*iter(u - v for u, v in zip(self, other)))`. -/
def Vec.sub (u v : Vec) : Vec := List.zipWith (fun a b => a - b) u v

/-- `Vector.__mul__` with a vector argument (dot product):
`sum(u * v for u, v in zip(self, other))`. -/
def Vec.dot (u v : Vec) : ℚ := (List.zipWith (fun a b => a * b) u v).sum

/-- Following the spec's words (§4.1): `dot(other)` and the componentwise
operators fail with `DimensionMismatch` when the operand lengths differ.
This is the checked semantics the spec describes, to be compared with the
code's `Vec.add`/`Vec.sub`/`Vec.dot`. -/
def Vec.addChecked (u v : Vec) : Option Vec :=
  if List.length u = List.length v then some (Vec.add u v) else none

/-- Spec-described checked subtraction (see `Vec.addChecked`). -/
def Vec.subChecked (u v : Vec) : Option Vec :=
  if List.length u = List.length v then some (Vec.sub u v) else none

/-- Spec-described checked dot product (see `Vec.addChecked`). -/
def Vec.dotChecked (u v : Vec) : Option ℚ :=
  if List.length u = List.length v then some (Vec.dot u v) else none

/-! ## `Transformation` from `grafatko/utilities.py`

State: `scale` (initial 20) and `translation` (initial `Vector(0, 0)`).
The canvas positions are 2-dimensional; we model points as `ℚ × ℚ` and
the wheel exponent of `zoom` (`self.scale *= 2 ** delta`) as an integer
exponent so that the arithmetic stays in ℚ. -/

/-- The `Transformation` dataclass: scale factor and translation vector. -/
structure Transformation where
  scale : ℚ
  translation : ℚ × ℚ
deriving DecidableEq

/-- `Transformation.apply` (screen → world):
`(point - self.translation) / self.scale`. -/
def Transformation.apply (t : Transformation) (p : ℚ × ℚ) : ℚ × ℚ :=
  ((p.1 - t.translation.1) / t.scale, (p.2 - t.translation.2) / t.scale)

/-- `Transformation.inverse` (world → screen):
`point * self.scale + self.translation`. -/
def Transformation.inverse (t : Transformation) (p : ℚ × ℚ) : ℚ × ℚ :=
  (p.1 * t.scale + t.translation.1, p.2 * t.scale + t.translation.2)

/-- `Transformation.zoom`:
`previous_scale = self.scale; self.scale *= 2 ** delta;`
`self.translation -= position * (self.scale - previous_scale)`. -/
def Transformation.zoom (t : Transformation) (position : ℚ × ℚ) (delta : ℤ) :
    Transformation :=
  let previousScale := t.scale
  let newScale := t.scale * 2 ^ delta
  { scale := newScale,
    translation :=
      (t.translation.1 - position.1 * (newScale - previousScale),
       t.translation.2 - position.2 * (newScale - previousScale)) }

/-- `Transformation.center`:
`middle = self.apply(Vector(width, height) / 2);`
`self.translation = self.inverse((middle - point) * center_smoothness)`.
The canvas width and height are passed as parameters. -/
def Transformation.center (t : Transformation) (width height : ℚ)
    (point : ℚ × ℚ) (smoothness : ℚ) : Transformation :=
  let middle := t.apply (width / 2, height / 2)
  { t with
    translation :=
      t.inverse ((middle.1 - point.1) * smoothness,
                 (middle.2 - point.2) * smoothness) }

/-- `Transformation.translate`: `self.translation += delta * self.scale`. -/
def Transformation.translate (t : Transformation) (delta : ℚ × ℚ) :
    Transformation :=
  { t with
    translation :=
      (t.translation.1 + delta.1 * t.scale, t.translation.2 + delta.2 * t.scale) }

/-! ## `Canvas.export_graph` from `grafatko/__init__.py`

```
path = QFileDialog.getSaveFileName()[0]
if path == "": return
try:
    with open(path, "w") as f:
        f.write(self.graph.to_string())
except Exception as e:
    QMessageBox.critical(...)
    os.remove(path)
```

The file system is modelled as the content at the chosen path
(`Option String`, `none` = no file there).  The environment decides
whether `open` or `write` fails, which we inject as a mode parameter.
`os.remove` deletes the file if present and raises `FileNotFoundError`
(uncaught here) if the path does not exist. -/

/-- Which step of the file write fails, decided by the environment. -/
inductive WriteMode where
  | success
  | openFail
  | writeFail
deriving DecidableEq

/-- Observable outcome of one `export_graph` call. -/
inductive ExportResult where
  | notAttempted
  | exported
  | reportedAndCleaned
  | uncaughtError
deriving DecidableEq

/-- `Canvas.export_graph`, over an abstract in-memory graph `g` whose
serialization is `text`.  Returns the (unchanged) graph, the file-system
state at `path` and the observable outcome.

* `open(path, "w")` creates/truncates the file; on `openFail` it raises
  before touching the file system.
* `f.write` fills in the serialized text; on `writeFail` it raises after
  the file was created, leaving a partial (here: empty) file behind.
* The `except` block first reports the error (`QMessageBox.critical`),
  then calls `os.remove(path)`, which raises an uncaught
  `FileNotFoundError` when no file exists at `path`. -/
def Canvas.export_graph {G : Type} (g : G) (text : String) (path : String)
    (mode : WriteMode) (fs : Option String) :
    G × Option String × ExportResult :=
  if path = "" then (g, fs, ExportResult.notAttempted)
  else
    match mode with
    | WriteMode.success => (g, some text, ExportResult.exported)
    | WriteMode.openFail =>
        match fs with
        | some _ => (g, none, ExportResult.reportedAndCleaned)
        | none => (g, none, ExportResult.uncaughtError)
    | WriteMode.writeFail => (g, none, ExportResult.reportedAndCleaned)

/-! ## Weak connectivity over the edge list

Modelled from the spec (§4.3, the implementation lives in the missing
`grafatko/graph.py`): `weaklyConnected(a, b)` is true iff `b` is
reachable from `a` treating every edge as undirected, computed by
breadth-first expansion over the undirected view of the adjacency.
Nodes are indices `< n` into the graph's node list; edges are ordered
index pairs. -/

/-- Undirected adjacency over the ordered edge list. -/
def undirAdj (es : List (ℕ × ℕ)) (a b : ℕ) : Bool :=
  es.any fun e => (e.1 = a ∧ e.2 = b) ∨ (e.1 = b ∧ e.2 = a)

/-- One round of breadth-first expansion: keep every node of the graph
that is already in the set or adjacent (undirectedly) to a member. -/
def expandOnce (es : List (ℕ × ℕ)) (n : ℕ) (s : List ℕ) : List ℕ :=
  (List.range n).filter fun j => s.contains j || s.any fun i => undirAdj es i j

/-- Nodes within undirected distance `k` of `a` (`k` expansion rounds). -/
def reachIter (es : List (ℕ × ℕ)) (n : ℕ) (a : ℕ) (k : ℕ) : List ℕ :=
  Nat.iterate (expandOnce es n) k [a]

/-- Modelled from the spec: `Graph.weakly_connected(a, b)` — whether `a`
and `b` are reachable from each other over the undirected view of the
adjacency (`n` expansion rounds surely saturate a graph on `n` nodes). -/
def weaklyConnected (es : List (ℕ × ℕ)) (n : ℕ) (a b : ℕ) : Bool :=
  (reachIter es n a n).contains b

/-- Modelled from the spec: the BFS layer at distance `k` from `root`
(`get_distance_from_root` of the missing `grafatko/graph.py`): nodes
reachable within `k` rounds but not within `k - 1`; layer 0 is the root
alone.  Unreachable nodes appear in no layer. -/
def layerNodes (es : List (ℕ × ℕ)) (n : ℕ) (root : ℕ) (k : ℕ) : List ℕ :=
  if k = 0 then [root]
  else (reachIter es n root k).filter
    fun j => !(reachIter es n root (k - 1)).contains j

/-! ## Interaction state for `Canvas.mousePressEvent` (right button)

Node positions stay in ℚ here: the only geometry used is the hit test of
`node_at_position`, which we express with squared distances. -/

/-- A drawable node as the interaction machine sees it: world position,
hit radius and selection flag. -/
structure CNode where
  pos : ℚ × ℚ
  radius : ℚ
  selected : Bool
deriving DecidableEq

/-- The canvas-side graph state used by the mouse handlers. -/
structure CState where
  nodes : List CNode
  edges : List (ℕ × ℕ)
deriving DecidableEq

/-- Node lookup by index (indices used below are always in range). -/
def CState.node (st : CState) (i : ℕ) : CNode :=
  st.nodes.getD i ⟨(0, 0), 1, false⟩

/-- Modelled from the spec: `node_at_position` returns the first node
whose position is within its hit radius of the query point (the
implementation lives in the missing `grafatko/graph.py`); the test
compares squared distances, which is equivalent and keeps the
arithmetic in ℚ. -/
def CState.node_at_position (st : CState) (p : ℚ × ℚ) : Option ℕ :=
  st.nodes.findIdx? fun nd =>
    decide ((nd.pos.1 - p.1) ^ 2 + (nd.pos.2 - p.2) ^ 2 ≤ nd.radius ^ 2)

/-- Modelled from the spec: `get_selected` — the selected nodes, in
storage order (returned as indices). -/
def CState.get_selected (st : CState) : List ℕ :=
  (List.range st.nodes.length).filter fun i => (st.node i).selected

/-- Modelled from the spec: `deselect_all` clears every selection flag. -/
def CState.deselect_all (st : CState) : CState :=
  { st with nodes := st.nodes.map fun nd => { nd with selected := false } }

/-- Set the selection flag of node `i` (`DrawableNode.select`). -/
def CState.selectFlag (st : CState) (i : ℕ) : CState :=
  { st with nodes := st.nodes.set i { st.node i with selected := true } }

/-- `Canvas.select(node)`: deselect everything unless shift is pressed,
then select the given node. -/
def CState.select (st : CState) (shift : Bool) (i : ℕ) : CState :=
  (if shift then st else st.deselect_all).selectFlag i

/-- Modelled from the spec: `Graph.add_vertex(a, b)` adds the directed
edge `(a, b)`; re-adding an existing edge is a no-op. -/
def addVertex (es : List (ℕ × ℕ)) (a b : ℕ) : List (ℕ × ℕ) :=
  if (a, b) ∈ es then es else es ++ [(a, b)]

/-- Modelled from the spec: `Graph.toggle_vertex(a, b)` removes the edge
if present and adds it otherwise. -/
def toggleVertex (es : List (ℕ × ℕ)) (a b : ℕ) : List (ℕ × ℕ) :=
  if (a, b) ∈ es then es.filter (fun e => e ≠ (a, b)) else es ++ [(a, b)]

/-- The right-button branch of `Canvas.mousePressEvent`:

```
selected = self.graph.get_selected()
if pressed is None:
    pressed = DrawableNode(self.mouse.get_position())
    self.graph.add_node(pressed)
    for node in selected:
        self.graph.add_vertex(node, pressed)
    self.select(pressed)
else:
    for node in selected:
        self.graph.toggle_vertex(node, pressed)
```

A freshly constructed `DrawableNode` is not selected. -/
def CState.rightPress (st : CState) (shift : Bool) (mousePos : ℚ × ℚ)
    (newRadius : ℚ) : CState :=
  let selected := st.get_selected
  match st.node_at_position mousePos with
  | none =>
      let newIdx := st.nodes.length
      let st1 : CState :=
        { st with nodes := st.nodes ++ [⟨mousePos, newRadius, false⟩] }
      let st2 : CState :=
        { st1 with edges := selected.foldl (fun es s => addVertex es s newIdx) st1.edges }
      st2.select shift newIdx
  | some j =>
      { st with edges := selected.foldl (fun es s => toggleVertex es s j) st.edges }

/-! ## The force part of `Canvas.update` from `grafatko/__init__.py`

Positions and forces are 2-vectors; Python floats are modelled as ℝ
because the step computes Euclidean distances (`sqrt`).  The random
nudge `Vector(random(), random())` is modelled by threading a stream of
pre-drawn random vectors through the tick. -/

open Classical

/-- A simulation node (modelled from the spec, the class lives in the
missing `grafatko/graph.py`): position, per-tick accumulated force and
drag state. -/
structure DNode where
  pos : ℝ × ℝ
  force : ℝ × ℝ
  dragged : Bool

/-- The drawable graph as the simulation reads it: node list (the index
is the node's identity), ordered directed edge list, optional root. -/
structure DGraph where
  nodes : List DNode
  edges : List (ℕ × ℕ)
  root : Option ℕ

/-- `Vector.distance`:
`sqrt(sum(map(lambda x: sum(x) ** 2, zip(self, -other))))`. -/
noncomputable def vdist (u v : ℝ × ℝ) : ℝ :=
  Real.sqrt ((u.1 + -v.1) ^ 2 + (u.2 + -v.2) ^ 2)

/-- `Vector.magnitude`: `sqrt(sum(component ** 2 for component in self))`. -/
noncomputable def vmag (v : ℝ × ℝ) : ℝ :=
  Real.sqrt (v.1 ^ 2 + v.2 ^ 2)

/-- `Vector.unit`: `self / self.magnitude()` (componentwise). -/
noncomputable def vunit (v : ℝ × ℝ) : ℝ × ℝ :=
  (v.1 / vmag v, v.2 / vmag v)

/-- Modelled from the spec: `Node.add_force` accumulates a force vector
into the node's per-tick accumulator. -/
def DNode.add_force (nd : DNode) (f : ℝ × ℝ) : DNode :=
  { nd with force := (nd.force.1 + f.1, nd.force.2 + f.2) }

/-- Modelled from the spec: `Node.clear_forces` resets the accumulator
without applying it. -/
def DNode.clear_forces (nd : DNode) : DNode :=
  { nd with force := (0, 0) }

/-- Modelled from the spec: `Node.evaluate_forces` adds the accumulated
force to the position once and resets the accumulator; a dragged node
ignores simulation forces entirely. -/
def DNode.evaluate_forces (nd : DNode) : DNode :=
  if nd.dragged then { nd with force := (0, 0) }
  else
    { nd with
      pos := (nd.pos.1 + nd.force.1, nd.pos.2 + nd.force.2),
      force := (0, 0) }

/-- Default node for list lookups (every index used below is in range). -/
def dfltDNode : DNode := ⟨(0, 0), (0, 0), false⟩

/-- Node lookup by index. -/
def getNode (st : List DNode) (i : ℕ) : DNode :=
  st.getD i dfltDNode

/-- `node.add_force(f)` on the node stored at index `i`. -/
def addForceAt (st : List DNode) (i : ℕ) (f : ℝ × ℝ) : List DNode :=
  st.set i ((getNode st i).add_force f)

/-- Modelled from the spec: `Graph.is_vertex(a, b)` — existence of the
directed edge `(a, b)`. -/
def isVertex (es : List (ℕ × ℕ)) (i j : ℕ) : Bool :=
  es.contains (i, j)

/-- In `Canvas.update` the assignment
`root := self.graph.get_root() is not None and self.forces`
binds `root` to a *boolean* (the walrus operator has the lowest
precedence), so the later test `n1 is root` compares a node object with
a boolean singleton by identity — in CPython that is always `False`. -/
def nodeIsBoolRoot : Bool := false

/-- `node is not root` with `root` bound to a boolean (see
`nodeIsBoolRoot`): always `True` in CPython. -/
def nodeIsNotBoolRoot : Bool := true

/-- Modelled from the spec: `weakly_connected(node, root)` where `root`
is the boolean produced by the walrus assignment (see `nodeIsBoolRoot`);
a boolean is never a member of a set of graph nodes, so the membership
test behind `weakly_connected` yields `False`. -/
def weaklyConnectedToBoolRoot : Bool := false

/-- One iteration of the inner pairwise loop of `Canvas.update` for the
node pair `(i, j)`, transforming the node list and the stream of
pre-drawn random vectors:

```
if not self.graph.weakly_connected(n1, n2): continue
d = n1.get_position().distance(n2.get_position())
if d == 0:
    n1.add_force(Vector(random(), random())); continue
uv = (n2.get_position() - n1.get_position()).unit()
fr = self.repulsion(d)                      # (1 / d) ** 2
n1.add_force(-uv * fr); n2.add_force(uv * fr)
if self.graph.is_vertex(n1, n2) or self.graph.is_vertex(n2, n1):
    fa = self.attraction(d)                 # -(d - 6) / 3
    n1.add_force(-uv * fa); n2.add_force(uv * fa)
```
-/
noncomputable def pairStep (es : List (ℕ × ℕ)) (n : ℕ) (i j : ℕ)
    (sr : List DNode × List (ℝ × ℝ)) : List DNode × List (ℝ × ℝ) :=
  let st := sr.1
  let rng := sr.2
  if weaklyConnected es n i j = false then sr
  else
    let d := vdist (getNode st i).pos (getNode st j).pos
    if d = 0 then (addForceAt st i (rng.headD (0, 0)), rng.tail)
    else
      let uv := vunit
        ((getNode st j).pos.1 - (getNode st i).pos.1,
         (getNode st j).pos.2 - (getNode st i).pos.2)
      let fr := (1 / d) ^ 2
      let st1 := addForceAt st i (-uv.1 * fr, -uv.2 * fr)
      let st2 := addForceAt st1 j (uv.1 * fr, uv.2 * fr)
      if isVertex es i j || isVertex es j i then
        let fa := -(d - 6) / 3
        let st3 := addForceAt st2 i (-uv.1 * fa, -uv.2 * fa)
        (addForceAt st3 j (uv.1 * fa, uv.2 * fa), rng)
      else (st2, rng)

/-- The inner loop `for n2 in self.graph.get_nodes()[i + 1:]`. -/
noncomputable def innerLoop (es : List (ℕ × ℕ)) (n i : ℕ)
    (sr : List DNode × List (ℝ × ℝ)) : List DNode × List (ℝ × ℝ) :=
  (List.range' (i + 1) (n - (i + 1))).foldl (fun acc j => pairStep es n i j acc) sr

/-- One iteration of the outer loop of `Canvas.update`: run the inner
pairwise loop for `n1 = nodes[i]`, then

```
if n1 is root: n1.clear_forces()
else: n1.evaluate_forces()
```

where `n1 is root` compares a node with the boolean `root` (see
`nodeIsBoolRoot`). -/
noncomputable def outerBody (es : List (ℕ × ℕ)) (n : ℕ)
    (sr : List DNode × List (ℝ × ℝ)) (i : ℕ) : List DNode × List (ℝ × ℝ) :=
  let sr1 := innerLoop es n i sr
  (if nodeIsBoolRoot then sr1.1.set i (getNode sr1.1 i).clear_forces
   else sr1.1.set i (getNode sr1.1 i).evaluate_forces,
   sr1.2)

/-- The whole `if self.forces:` pairwise/integration block. -/
noncomputable def forcePhase (es : List (ℕ × ℕ)) (n : ℕ)
    (sr : List DNode × List (ℝ × ℝ)) : List DNode × List (ℝ × ℝ) :=
  (List.range n).foldl (outerBody es n) sr

/-- `Vector.average`: componentwise sum divided by the length. -/
noncomputable def vaverage (l : List (ℝ × ℝ)) : ℝ × ℝ :=
  ((l.map Prod.fst).sum / l.length, (l.map Prod.snd).sum / l.length)

/-- One BFS layer of the tree-force block of `Canvas.update`:

```
if len(distances[layer]) < 1: continue
pivot = Vector.average([n.get_position() for n in distances[layer]])
for node in distances[layer]:
    vector = Vector(0, pivot[1] - node.get_position()[1])
    node.add_force(self.tree(vector))       # vector * 0.3
```
-/
noncomputable def layerForce (st : List DNode) (layer : List ℕ) : List DNode :=
  if layer.length < 1 then st
  else
    let pivot := vaverage (layer.map fun i => (getNode st i).pos)
    layer.foldl
      (fun s i =>
        addForceAt s i (0 * 0.3, (pivot.2 - (getNode s i).pos.2) * 0.3))
      st

/-- The `for layer in distances:` loop (BFS layers from the root). -/
noncomputable def treeLoop (es : List (ℕ × ℕ)) (n root : ℕ)
    (st : List DNode) : List DNode :=
  (List.range n).foldl (fun s k => layerForce s (layerNodes es n root k)) st

/-- The gravity loop of `Canvas.update`:

```
for node in self.graph.get_nodes():
    if node is not root and self.graph.weakly_connected(node, root):
        node.add_force(self.gravity())      # Vector(0, 0.1)
```

with `root` bound to a boolean (see `nodeIsBoolRoot`), so the condition
is `True and False` and the gravity force is never applied. -/
def gravityLoop (n : ℕ) (st : List DNode) : List DNode :=
  (List.range n).foldl
    (fun s i =>
      if nodeIsNotBoolRoot && weaklyConnectedToBoolRoot then
        addForceAt s i (0, 0.1)
      else s)
    st

/-- The force-simulation part of `Canvas.update` (one tick), returning
the updated graph and the rest of the random stream:

```
if root := self.graph.get_root() is not None and self.forces:
    distances = self.graph.get_distance_from_root()
    ... tree-layer forces ...
    ... gravity ...
if self.forces:
    ... pairwise forces and integration ...
```

(The subsequent space-key centering acts on the viewport transform, not
on the graph, and is not part of this embedding.) -/
noncomputable def update (g : DGraph) (forces : Bool) (rng : List (ℝ × ℝ)) :
    DGraph × List (ℝ × ℝ) :=
  let n := g.nodes.length
  let rootB : Bool := g.root.isSome && forces
  let st0 :=
    if rootB then
      match g.root with
      | some r => gravityLoop n (treeLoop g.edges n r g.nodes)
      | none => g.nodes
    else g.nodes
  if forces then
    let sr := forcePhase g.edges n (st0, rng)
    ({ g with nodes := sr.1 }, sr.2)
  else ({ g with nodes := st0 }, rng)

end Grafatko

namespace TreeVisualizer

/-! ## `TreeVisualizer.get_mouse_coordinates` from `src/__main__.py`

`x = event.pos().x(); y = event.pos().y()` are integer pixel coordinates;
the canvas width/height are integer widget dimensions. -/

/-- `TreeVisualizer.get_mouse_coordinates(event, scale_down)`:
returns the mouse coordinates if they are within the canvas and `None` if
they are not; with `scale_down=True` it clamps the coordinates onto the
canvas instead. -/
def get_mouse_coordinates (x y width height : ℤ) (scaleDown : Bool) :
    Option (ℤ × ℤ) :=
  let xOnCanvas := 0 ≤ x ∧ x ≤ width
  let yOnCanvas := 0 ≤ y ∧ y ≤ height
  if scaleDown then
    some (if xOnCanvas then x else if x ≤ 0 then 0 else width,
          if yOnCanvas then y else if y ≤ 0 then 0 else height)
  else
    if xOnCanvas ∧ yOnCanvas then some (x, y) else none

/-! ## `TreeVisualizer.perform_simulation_iteration` from `src/__main__.py`

The legacy pairwise step.  Python's `/` raises `ZeroDivisionError` on a
zero divisor, so divisions are embedded as `Except`-valued operations;
everything else is total. -/

open Classical

/-- A legacy node: position and per-tick force accumulator. -/
structure TNode where
  x : ℝ
  y : ℝ
  fx : ℝ
  fy : ℝ

/-- Default node for list lookups (indices used below are in range). -/
def dfltTNode : TNode := ⟨0, 0, 0, 0⟩

/-- Python float division: raises `ZeroDivisionError` when the divisor
is zero. -/
noncomputable def pydiv (a b : ℝ) : Except Unit ℝ :=
  if b = 0 then Except.error () else Except.ok (a / b)

/-- `TreeVisualizer.distance`: `sqrt((x1 - x2) ** 2 + (y1 - y2) ** 2)`. -/
noncomputable def distance (x1 y1 x2 y2 : ℝ) : ℝ :=
  Real.sqrt ((x1 - x2) ^ 2 + (y1 - y2) ^ 2)

/-- Modelled from the spec: `Graph.does_vertice_exist(a, b,
ignore_orientation=True)` — an edge exists between the two nodes in
either orientation (the legacy `graph.py` is not among the sources). -/
def does_vertice_exist (es : List (ℕ × ℕ)) (i j : ℕ) : Bool :=
  es.contains (i, j) || es.contains (j, i)

/-- Modelled from the spec: `Node.add_force` accumulates a force pair. -/
def TNode.add_force (nd : TNode) (f : ℝ × ℝ) : TNode :=
  { nd with fx := nd.fx + f.1, fy := nd.fy + f.2 }

/-- `node.add_force(f)` on the node stored at index `i`. -/
def addForceAt (st : List TNode) (i : ℕ) (f : ℝ × ℝ) : List TNode :=
  st.set i ((st.getD i dfltTNode).add_force f)

/-- One iteration of the inner pairwise loop of
`TreeVisualizer.perform_simulation_iteration` for the pair `(i, j)`:

```
d = self.distance(n1.get_x(), n1.get_y(), n2.get_x(), n2.get_y())
nx, ny = (n2.get_x() - n1.get_x()) / d, (n2.get_y() - n1.get_y()) / d
fr = self.repulsion_force_function(d)       # 1 / x * 10
n1.add_force((-nx * fr, -ny * fr))
n2.add_force((nx * fr, ny * fr))
if self.graph.does_vertice_exist(n1, n2, ignore_orientation=True):
    fa = self.attraction_force_function(d)  # 0 if x <= 80 else -(x - 80) / 10
    n1.add_force((-nx * fa, -ny * fa))
    n2.add_force((nx * fa, ny * fa))
```

Note there is no `d == 0` test: the divisions by `d` come first. -/
noncomputable def pairStep (es : List (ℕ × ℕ)) (st : List TNode)
    (i j : ℕ) : Except Unit (List TNode) := do
  let n1 := st.getD i dfltTNode
  let n2 := st.getD j dfltTNode
  let d := distance n1.x n1.y n2.x n2.y
  let nx ← pydiv (n2.x - n1.x) d
  let ny ← pydiv (n2.y - n1.y) d
  let fr0 ← pydiv 1 d
  let fr := fr0 * 10
  let st1 := addForceAt st i (-nx * fr, -ny * fr)
  let st2 := addForceAt st1 j (nx * fr, ny * fr)
  if does_vertice_exist es i j then
    let fa := if d ≤ 80 then 0 else -(d - 80) / 10
    let st3 := addForceAt st2 i (-nx * fa, -ny * fa)
    return addForceAt st3 j (nx * fa, ny * fa)
  else
    return st2

end TreeVisualizer

/-! ## Helper lemmas -/

/-- `zipWith` only consumes the common prefix of its operands. -/
theorem zipWith_take_take {α β γ : Type} (f : α → β → γ) :
    ∀ (u : List α) (v : List β),
      List.zipWith f u v =
        List.zipWith f (u.take v.length) (v.take u.length)
  | [], _ => by simp
  | _ :: _, [] => by simp
  | a :: u, b :: v => by
    simp only [List.zipWith, List.length_cons, List.take_succ_cons]
    exact congrArg _ (zipWith_take_take f u v)

/-! ## Claim theorems -/

/-- C9 (counterexample): the claim says `add`, `sub` and the dot product
fail with `DimensionMismatch` on operands of unequal length; on the
concrete unequal-length input `<1, 2>` and `<3, 4, 5>` the code instead
returns truncated values (`zip` stops at the shorter operand), whereas
the spec's checked semantics fails. -/
theorem C9_counterexample :
    Grafatko.Vec.add [1, 2] [3, 4, 5] = [4, 6] ∧
    Grafatko.Vec.sub [1, 2] [3, 4, 5] = [-2, -2] ∧
    Grafatko.Vec.dot [1, 2] [3, 4, 5] = 11 ∧
    Grafatko.Vec.addChecked [1, 2] [3, 4, 5] = none ∧
    Grafatko.Vec.subChecked [1, 2] [3, 4, 5] = none ∧
    Grafatko.Vec.dotChecked [1, 2] [3, 4, 5] = none := by
  refine ⟨?_, ?_, ?_, ?_, ?_, ?_⟩ <;>
    norm_num [Grafatko.Vec.add, Grafatko.Vec.sub, Grafatko.Vec.dot,
      Grafatko.Vec.addChecked, Grafatko.Vec.subChecked, Grafatko.Vec.dotChecked]

/-- C9 (amended): `Vector.__add__`, `__sub__` and the dot product do not
fail on unequal-length operands; they silently truncate both operands to
the common prefix (`zip` semantics) and return a value. -/
theorem C9_amended_truncation (u v : Grafatko.Vec) :
    List.length (Grafatko.Vec.add u v) =
      min (List.length u) (List.length v) ∧
    List.length (Grafatko.Vec.sub u v) =
      min (List.length u) (List.length v) ∧
    Grafatko.Vec.dot u v =
      Grafatko.Vec.dot (List.take (List.length v) u)
        (List.take (List.length u) v) := by
  refine ⟨List.length_zipWith .., List.length_zipWith .., ?_⟩
  unfold Grafatko.Vec.dot
  exact congrArg List.sum (zipWith_take_take _ u v)

/-- C10: `get_mouse_coordinates` with `scale_down=True` always returns a
pair clamped componentwise into `[0, width] × [0, height]` (never
`None`); with `scale_down=False` it returns the unmodified pair exactly
when both components lie inside that rectangle, and `None` otherwise. -/
theorem C10_get_mouse_coordinates (x y width height : ℤ)
    (hw : 0 ≤ width) (hh : 0 ≤ height) :
    (∃ p : ℤ × ℤ,
      TreeVisualizer.get_mouse_coordinates x y width height true = some p ∧
      0 ≤ p.1 ∧ p.1 ≤ width ∧ 0 ≤ p.2 ∧ p.2 ≤ height) ∧
    (TreeVisualizer.get_mouse_coordinates x y width height false =
      if (0 ≤ x ∧ x ≤ width) ∧ (0 ≤ y ∧ y ≤ height) then some (x, y)
      else none) := by
  unfold TreeVisualizer.get_mouse_coordinates
  constructor
  · refine ⟨_, rfl, ?_, ?_, ?_, ?_⟩ <;> dsimp only <;> split_ifs <;> omega
  · rw [if_neg (by simp)]

/-- C10 (witness): the theorem applied at `x = -5`, `y = 999` on a
`600 × 600` canvas. -/
theorem C10_witness :
    0 ≤ (600 : ℤ) ∧ 0 ≤ (600 : ℤ) ∧
    ((∃ p : ℤ × ℤ,
      TreeVisualizer.get_mouse_coordinates (-5) 999 600 600 true = some p ∧
      0 ≤ p.1 ∧ p.1 ≤ 600 ∧ 0 ≤ p.2 ∧ p.2 ≤ 600) ∧
    (TreeVisualizer.get_mouse_coordinates (-5) 999 600 600 false =
      if 0 ≤ (-5 : ℤ) ∧ (-5 : ℤ) ≤ 600 ∧ 0 ≤ (999 : ℤ) ∧ (999 : ℤ) ≤ 600
      then some (-5, 999) else none)) :=
  ⟨by decide, by decide,
    C10_get_mouse_coordinates (-5) 999 600 600 (by decide) (by decide)⟩

/-- C4 (counterexample): `zoom` does *not* keep the world point under a
*screen* pivot fixed on screen.  With scale 2, translation (4, 4), screen
pivot (10, 10) and delta 1, the world point under the pivot is (3, 3)
before the zoom, but its screen position after the zoom is (-4, -4), not
(10, 10). -/
theorem C4_counterexample :
    Grafatko.Transformation.apply ⟨2, (4, 4)⟩ (10, 10) = (3, 3) ∧
    Grafatko.Transformation.zoom ⟨2, (4, 4)⟩ (10, 10) 1 = ⟨4, (-16, -16)⟩ ∧
    Grafatko.Transformation.inverse
      (Grafatko.Transformation.zoom ⟨2, (4, 4)⟩ (10, 10) 1)
      (Grafatko.Transformation.apply ⟨2, (4, 4)⟩ (10, 10)) = (-4, -4) ∧
    ¬ Grafatko.Transformation.inverse
      (Grafatko.Transformation.zoom ⟨2, (4, 4)⟩ (10, 10) 1)
      (Grafatko.Transformation.apply ⟨2, (4, 4)⟩ (10, 10)) = (10, 10) := by
  refine ⟨?_, ?_, ?_, ?_⟩ <;>
    norm_num [Grafatko.Transformation.apply, Grafatko.Transformation.zoom,
      Grafatko.Transformation.inverse, Prod.ext_iff,
      Grafatko.Transformation.mk.injEq]

/-- C4 (amended): with nonzero scale, `inverse ∘ apply`
(worldToScreen ∘ screenToWorld) is the identity and stays the identity
after any `zoom`; and `zoom` keeps the screen position of the *world*
point it receives unchanged — callers pass the pivot in world
coordinates (`mouse.get_position()` is world-space), so the world point
under the mouse stays anchored.  For a screen pivot `P` this means
anchor invariance holds when `zoom` is called with `apply P`. -/
theorem C4_amended (t : Grafatko.Transformation) (P w : ℚ × ℚ) (delta : ℤ)
    (h : t.scale ≠ 0) :
    t.inverse (t.apply P) = P ∧
    (t.zoom (t.apply P) delta).inverse ((t.zoom (t.apply P) delta).apply P) = P ∧
    (t.zoom (t.apply P) delta).inverse (t.apply P) = P ∧
    (t.zoom w delta).inverse w = t.inverse w := by
  have h2 : (2 : ℚ) ^ delta ≠ 0 := zpow_ne_zero _ two_ne_zero
  unfold Grafatko.Transformation.apply Grafatko.Transformation.inverse
    Grafatko.Transformation.zoom
  dsimp only
  refine ⟨?_, ?_, ?_, ?_⟩ <;> rw [Prod.ext_iff] <;> constructor <;>
    dsimp only <;> (try field_simp) <;> ring

/-- C4 (witness): the amended theorem applied at scale 20, translation
(0, 0), screen point (7, 5), world pivot (3, 3) and delta 1. -/
theorem C4_amended_witness :
    (⟨20, (0, 0)⟩ : Grafatko.Transformation).scale ≠ 0 ∧
    ((⟨20, (0, 0)⟩ : Grafatko.Transformation).inverse
        ((⟨20, (0, 0)⟩ : Grafatko.Transformation).apply (7, 5)) = (7, 5) ∧
      ((⟨20, (0, 0)⟩ : Grafatko.Transformation).zoom
          ((⟨20, (0, 0)⟩ : Grafatko.Transformation).apply (7, 5)) 1).inverse
        (((⟨20, (0, 0)⟩ : Grafatko.Transformation).zoom
          ((⟨20, (0, 0)⟩ : Grafatko.Transformation).apply (7, 5)) 1).apply (7, 5)) =
        (7, 5) ∧
      ((⟨20, (0, 0)⟩ : Grafatko.Transformation).zoom
          ((⟨20, (0, 0)⟩ : Grafatko.Transformation).apply (7, 5)) 1).inverse
        ((⟨20, (0, 0)⟩ : Grafatko.Transformation).apply (7, 5)) = (7, 5) ∧
      ((⟨20, (0, 0)⟩ : Grafatko.Transformation).zoom (3, 3) 1).inverse (3, 3) =
        (⟨20, (0, 0)⟩ : Grafatko.Transformation).inverse (3, 3)) :=
  ⟨by decide, C4_amended ⟨20, (0, 0)⟩ (7, 5) (3, 3) 1 (by decide)⟩

/-- C7: with nonzero scale, `center(point, 1)` snaps immediately — the
world point under the viewport's screen center becomes exactly `point` —
and `center(point, 0)` leaves the translation exactly unchanged. -/
theorem C7_center (t : Grafatko.Transformation) (width height : ℚ)
    (p : ℚ × ℚ) (hs : t.scale ≠ 0) :
    (t.center width height p 1).apply (width / 2, height / 2) = p ∧
    (t.center width height p 0).translation = t.translation := by
  unfold Grafatko.Transformation.center Grafatko.Transformation.apply
    Grafatko.Transformation.inverse
  dsimp only
  constructor
  · rw [Prod.ext_iff]
    constructor <;> dsimp only <;> field_simp <;> ring
  · rw [Prod.ext_iff]
    constructor <;> dsimp only <;> ring

/-- C7 (witness): the theorem applied at scale 20, translation (3, 4),
an 800 × 600 viewport and target point (7, 9). -/
theorem C7_center_witness :
    (⟨20, (3, 4)⟩ : Grafatko.Transformation).scale ≠ 0 ∧
    (((⟨20, (3, 4)⟩ : Grafatko.Transformation).center 800 600 (7, 9) 1).apply
        (800 / 2, 600 / 2) = (7, 9) ∧
      ((⟨20, (3, 4)⟩ : Grafatko.Transformation).center 800 600 (7, 9) 0).translation =
        (⟨20, (3, 4)⟩ : Grafatko.Transformation).translation) :=
  ⟨by decide, C7_center ⟨20, (3, 4)⟩ 800 600 (7, 9) (by decide)⟩

/-- C6: when the file write fails (the file was created/truncated by
`open` and `f.write` raises), `export_graph` reports the error, removes
the file it created — no partial output remains — and leaves the
in-memory graph unchanged. -/
theorem C6_export_write_failure {G : Type} (g : G) (text path : String)
    (fs : Option String) (hp : path ≠ "") :
    Grafatko.Canvas.export_graph g text path Grafatko.WriteMode.writeFail fs =
      (g, none, Grafatko.ExportResult.reportedAndCleaned) := by
  unfold Grafatko.Canvas.export_graph
  rw [if_neg hp]

/-- C6 (witness): the theorem applied to a concrete export of a graph
serialized as "graph" to "out.txt" over a pre-existing file. -/
theorem C6_export_write_failure_witness :
    "out.txt" ≠ "" ∧
    Grafatko.Canvas.export_graph (0 : ℕ) "graph" "out.txt"
      Grafatko.WriteMode.writeFail (some "old") =
      ((0 : ℕ), none, Grafatko.ExportResult.reportedAndCleaned) :=
  ⟨by decide, C6_export_write_failure 0 "graph" "out.txt" (some "old") (by decide)⟩

/-- Helper: `add_vertex` preserves existing edges. -/
theorem mem_addVertex_of_mem (es : List (ℕ × ℕ)) (a b : ℕ) (e : ℕ × ℕ)
    (he : e ∈ es) : e ∈ Grafatko.addVertex es a b := by
  unfold Grafatko.addVertex
  split
  · exact he
  · exact List.mem_append_left _ he

/-- Helper: `add_vertex` makes its edge present. -/
theorem self_mem_addVertex (es : List (ℕ × ℕ)) (a b : ℕ) :
    (a, b) ∈ Grafatko.addVertex es a b := by
  unfold Grafatko.addVertex
  split
  · assumption
  · exact List.mem_append_right _ (List.mem_singleton.mpr rfl)

/-- Helper: folding `add_vertex` over a list preserves existing edges. -/
theorem mem_foldl_addVertex_of_mem (b : ℕ) :
    ∀ (sel : List ℕ) (es : List (ℕ × ℕ)) (e : ℕ × ℕ), e ∈ es →
      e ∈ sel.foldl (fun es0 x => Grafatko.addVertex es0 x b) es
  | [], _, _, he => he
  | x :: sel, _, e, he =>
      mem_foldl_addVertex_of_mem b sel _ e (mem_addVertex_of_mem _ x b e he)

/-- Helper: folding `add_vertex node new` over the selected nodes makes
every edge from a selected node to the new node present. -/
theorem mem_foldl_addVertex (b : ℕ) :
    ∀ (sel : List ℕ) (es : List (ℕ × ℕ)) (s : ℕ), s ∈ sel →
      (s, b) ∈ sel.foldl (fun es0 x => Grafatko.addVertex es0 x b) es
  | [], _, s, hs => absurd hs (List.not_mem_nil s)
  | x :: sel, es, s, hs => by
    rw [List.foldl_cons]
    rcases List.mem_cons.mp hs with h | h
    · subst h
      exact mem_foldl_addVertex_of_mem b sel _ _ (self_mem_addVertex es s b)
    · exact mem_foldl_addVertex b sel _ s h

/-- Helper: in a state whose node list is `A ++ [c]` with every node of
`A` deselected and `c` selected, the selected indices are exactly
`[A.length]`. -/
theorem get_selected_append_selected (A : List Grafatko.CNode)
    (c : Grafatko.CNode) (es : List (ℕ × ℕ)) (hc : c.selected = true)
    (hA : ∀ a ∈ A, a.selected = false) :
    Grafatko.CState.get_selected ⟨A ++ [c], es⟩ = [A.length] := by
  unfold Grafatko.CState.get_selected
  show (List.range (A ++ [c]).length).filter
      (fun i => (Grafatko.CState.node ⟨A ++ [c], es⟩ i).selected) = [A.length]
  rw [List.length_append, List.length_singleton, List.range_succ,
    List.filter_append]
  have h1 : (List.range A.length).filter
      (fun i => (Grafatko.CState.node ⟨A ++ [c], es⟩ i).selected) = [] := by
    rw [List.filter_eq_nil_iff]
    intro i hi
    have hilt : i < A.length := List.mem_range.mp hi
    unfold Grafatko.CState.node
    show ¬((A ++ [c]).getD i ⟨(0, 0), 1, false⟩).selected = true
    rw [List.getD_append _ _ _ _ hilt,
      List.getD_eq_getElem _ _ hilt, hA _ (List.getElem_mem hilt)]
    exact Bool.false_ne_true
  have h2 : (List.filter
      (fun i => (Grafatko.CState.node ⟨A ++ [c], es⟩ i).selected) [A.length]) =
      [A.length] := by
    rw [List.filter_singleton]
    unfold Grafatko.CState.node
    rw [List.getD_append_right _ _ _ _ (le_refl A.length), Nat.sub_self]
    show (bif c.selected then [A.length] else []) = [A.length]
    rw [hc]
    rfl
  rw [h1, h2]
  rfl

/-- Helper: the state produced by the empty-space right-press with the
group modifier not held, in explicit form. -/
theorem rightPress_none_shape (st : Grafatko.CState) (p : ℚ × ℚ) (r : ℚ)
    (hn : st.node_at_position p = none) :
    st.rightPress false p r =
      ⟨(st.nodes.map fun nd => { nd with selected := false }) ++ [⟨p, r, true⟩],
       st.get_selected.foldl
         (fun es s => Grafatko.addVertex es s st.nodes.length) st.edges⟩ := by
  unfold Grafatko.CState.rightPress
  rw [hn]
  unfold Grafatko.CState.select Grafatko.CState.deselect_all
    Grafatko.CState.selectFlag Grafatko.CState.node
  dsimp only
  rw [if_neg (by simp)]
  dsimp only
  rw [List.map_append]
  dsimp only [List.map_cons, List.map_nil]
  rw [List.getD_append_right _ _ _ _ (le_of_eq (List.length_map _ _))]
  rw [List.length_map, Nat.sub_self]
  rw [List.set_append]
  rw [if_neg (by rw [List.length_map]; exact lt_irrefl _)]
  rw [List.length_map, Nat.sub_self]
  rfl

/-- C8 (counterexample): a secondary press on empty space with the
group modifier (shift) held does *not* end with the new node as the only
selected node: starting from one selected node at (0, 0) and
right-pressing empty space at (10, 10) with shift held, both the old
node 0 and the new node 1 end selected. -/
theorem C8_counterexample :
    Grafatko.CState.node_at_position ⟨[⟨(0, 0), 1, true⟩], []⟩ (10, 10) = none ∧
    Grafatko.CState.get_selected
      (Grafatko.CState.rightPress ⟨[⟨(0, 0), 1, true⟩], []⟩ true (10, 10) 1) =
      [0, 1] := by
  have hfind : Grafatko.CState.node_at_position ⟨[⟨(0, 0), 1, true⟩], []⟩
      (10, 10) = none := by
    unfold Grafatko.CState.node_at_position
    rw [List.findIdx?_cons]
    rw [show (decide (((0 : ℚ) - 10) ^ 2 + ((0 : ℚ) - 10) ^ 2 ≤ 1 ^ 2)) = false
      from by norm_num]
    rw [if_neg (by simp)]
    exact List.findIdx?_nil
  refine ⟨hfind, ?_⟩
  unfold Grafatko.CState.rightPress
  rw [hfind]
  unfold Grafatko.CState.get_selected Grafatko.CState.select
    Grafatko.CState.selectFlag Grafatko.CState.node
  dsimp only
  rw [if_pos rfl]
  rfl

/-- C8 (amended): a secondary press at a position where no node lies
creates exactly one node at the pointer's position, adds an edge from
every node selected at press time to the new node, and — when the group
modifier (shift) is *not* held — ends with the new node as the only
selected node.  (With shift held, `Canvas.select` skips the deselect, so
the previously selected nodes stay selected alongside the new node.) -/
theorem C8_amended (st : Grafatko.CState) (p : ℚ × ℚ) (r : ℚ)
    (hn : st.node_at_position p = none) :
    (st.rightPress false p r).nodes.length = st.nodes.length + 1 ∧
    ((st.rightPress false p r).node st.nodes.length).pos = p ∧
    (∀ s ∈ st.get_selected,
      (s, st.nodes.length) ∈ (st.rightPress false p r).edges) ∧
    (st.rightPress false p r).get_selected = [st.nodes.length] := by
  rw [rightPress_none_shape st p r hn]
  refine ⟨?_, ?_, ?_, ?_⟩
  · show ((st.nodes.map fun nd =>
      ({ nd with selected := false } : Grafatko.CNode)) ++
      [(⟨p, r, true⟩ : Grafatko.CNode)]).length = st.nodes.length + 1
    rw [List.length_append, List.length_map, List.length_singleton]
  · unfold Grafatko.CState.node
    show (((st.nodes.map fun nd =>
      ({ nd with selected := false } : Grafatko.CNode)) ++
      [(⟨p, r, true⟩ : Grafatko.CNode)]).getD st.nodes.length
        ⟨(0, 0), 1, false⟩).pos = p
    rw [List.getD_append_right _ _ _ _ (le_of_eq (List.length_map _ _)),
      List.length_map, Nat.sub_self]
    rfl
  · intro s hs
    exact mem_foldl_addVertex st.nodes.length st.get_selected st.edges s hs
  · rw [show ((⟨(st.nodes.map fun nd => { nd with selected := false }) ++
      [⟨p, r, true⟩], st.get_selected.foldl
        (fun es s => Grafatko.addVertex es s st.nodes.length)
        st.edges⟩ : Grafatko.CState)).get_selected =
      Grafatko.CState.get_selected ⟨(st.nodes.map fun nd =>
        { nd with selected := false }) ++ [⟨p, r, true⟩],
        st.get_selected.foldl
          (fun es s => Grafatko.addVertex es s st.nodes.length)
          st.edges⟩ from rfl]
    rw [get_selected_append_selected _ _ _ rfl ?_, List.length_map]
    intro a ha
    rcases List.mem_map.mp ha with ⟨b, _, hb⟩
    rw [← hb]

/-- C8 (witness): the amended theorem applied to the empty canvas and a
right press at (10, 10). -/
theorem C8_amended_witness :
    Grafatko.CState.node_at_position ⟨[], []⟩ (10, 10) = none ∧
    ((Grafatko.CState.rightPress ⟨[], []⟩ false (10, 10) 1).nodes.length =
        ([] : List Grafatko.CNode).length + 1 ∧
      ((Grafatko.CState.rightPress ⟨[], []⟩ false (10, 10) 1).node
        ([] : List Grafatko.CNode).length).pos = (10, 10) ∧
      (∀ s ∈ Grafatko.CState.get_selected ⟨[], []⟩,
        (s, ([] : List Grafatko.CNode).length) ∈
          (Grafatko.CState.rightPress ⟨[], []⟩ false (10, 10) 1).edges) ∧
      (Grafatko.CState.rightPress ⟨[], []⟩ false (10, 10) 1).get_selected =
        [([] : List Grafatko.CNode).length]) :=
  ⟨rfl, C8_amended ⟨[], []⟩ (10, 10) 1 rfl⟩

/-- Helper: the source distance of a point to itself is zero. -/
theorem vdist_self (u : ℝ × ℝ) : Grafatko.vdist u u = 0 := by
  unfold Grafatko.vdist
  simp

/-- C2 (amended): in the current core (`Canvas.update`), one execution
of the pairwise-force body for a pair that is not weakly connected
leaves the whole node state (and the random stream) unchanged: the
`continue` guard fires before any force is accumulated on either node. -/
theorem C2_amended (es : List (ℕ × ℕ)) (n i j : ℕ)
    (st : List Grafatko.DNode) (rng : List (ℝ × ℝ))
    (h : Grafatko.weaklyConnected es n i j = false) :
    Grafatko.pairStep es n i j (st, rng) = (st, rng) := by
  unfold Grafatko.pairStep
  exact if_pos h

/-- C2 (witness): the amended theorem applied to two disconnected nodes
at (0, 0) and (5, 5). -/
theorem C2_amended_witness :
    Grafatko.weaklyConnected [] 2 0 1 = false ∧
    Grafatko.pairStep [] 2 0 1
        ([⟨(0, 0), (0, 0), false⟩, ⟨(5, 5), (0, 0), false⟩], []) =
      ([⟨(0, 0), (0, 0), false⟩, ⟨(5, 5), (0, 0), false⟩], []) :=
  ⟨by decide,
    C2_amended [] 2 0 1 [⟨(0, 0), (0, 0), false⟩, ⟨(5, 5), (0, 0), false⟩] []
      (by decide)⟩

/-- C2 (counterexample): in the legacy `TreeVisualizer` pairwise step
(also cited by the claim) there is no connectivity guard at all: two
nodes with no edges — hence not weakly connected — at (0, 0) and (1, 0)
both receive a nonzero repulsion force (±10 on the x axis). -/
theorem C2_counterexample :
    Grafatko.weaklyConnected [] 2 0 1 = false ∧
    TreeVisualizer.pairStep [] [⟨0, 0, 0, 0⟩, ⟨1, 0, 0, 0⟩] 0 1 =
      Except.ok [⟨0, 0, -10, 0⟩, ⟨1, 0, 10, 0⟩] ∧
    (-10 : ℝ) ≠ 0 := by
  refine ⟨by decide, ?_, by norm_num⟩
  have hd : TreeVisualizer.distance 0 0 1 0 = 1 := by
    unfold TreeVisualizer.distance
    norm_num
  unfold TreeVisualizer.pairStep
  rw [show (([⟨0, 0, 0, 0⟩, ⟨1, 0, 0, 0⟩] :
      List TreeVisualizer.TNode).getD 0 TreeVisualizer.dfltTNode) =
    ⟨0, 0, 0, 0⟩ from rfl]
  rw [show (([⟨0, 0, 0, 0⟩, ⟨1, 0, 0, 0⟩] :
      List TreeVisualizer.TNode).getD 1 TreeVisualizer.dfltTNode) =
    ⟨1, 0, 0, 0⟩ from rfl]
  dsimp only
  rw [hd]
  norm_num [TreeVisualizer.pydiv, TreeVisualizer.does_vertice_exist,
    TreeVisualizer.addForceAt, TreeVisualizer.TNode.add_force,
    TreeVisualizer.dfltTNode, Bind.bind, Except.bind, pure, Except.pure,
    List.set, TreeVisualizer.TNode.mk.injEq]

/-- C3: the claim (and the spec) says the d == 0 case is tested and
handled before any division, so a tick never raises; in the legacy
`TreeVisualizer.perform_simulation_iteration` (cited by the claim) the
normalization `(n2.x - n1.x) / d` divides *before* any zero test, so
with two coincident nodes at (0, 0) the pair step raises
`ZeroDivisionError`. -/
theorem C3_code_bug_eval :
    TreeVisualizer.pairStep [] [⟨0, 0, 0, 0⟩, ⟨0, 0, 0, 0⟩] 0 1 =
      Except.error () := by
  have hd : TreeVisualizer.distance 0 0 0 0 = 0 := by
    unfold TreeVisualizer.distance
    norm_num
  unfold TreeVisualizer.pairStep
  rw [show (([⟨0, 0, 0, 0⟩, ⟨0, 0, 0, 0⟩] :
      List TreeVisualizer.TNode).getD 0 TreeVisualizer.dfltTNode) =
    ⟨0, 0, 0, 0⟩ from rfl]
  rw [show (([⟨0, 0, 0, 0⟩, ⟨0, 0, 0, 0⟩] :
      List TreeVisualizer.TNode).getD 1 TreeVisualizer.dfltTNode) =
    ⟨0, 0, 0, 0⟩ from rfl]
  dsimp only
  rw [hd]
  norm_num [TreeVisualizer.pydiv, Bind.bind, Except.bind]

/-- Helper: for a weakly connected coincident pair, the pairwise body
takes the `d == 0` branch — only node `i` (the `n1` of the loop)
receives the random vector; node `j` is untouched. -/
theorem pairStep_coincident (es : List (ℕ × ℕ)) (n i j : ℕ)
    (st : List Grafatko.DNode) (rng : List (ℝ × ℝ))
    (hw : Grafatko.weaklyConnected es n i j = true)
    (hd : Grafatko.vdist (Grafatko.getNode st i).pos
      (Grafatko.getNode st j).pos = 0) :
    Grafatko.pairStep es n i j (st, rng) =
      (Grafatko.addForceAt st i (rng.headD (0, 0)), rng.tail) := by
  unfold Grafatko.pairStep
  rw [if_neg (by rw [hw]; exact fun hc => Bool.noConfusion hc)]
  dsimp only
  rw [if_pos hd]

/-- C5 (counterexample): for a weakly connected pair of coincident
nodes, the `d == 0` branch adds the random vector to `n1` only and then
`continue`s: the second node of the pair receives no nudging force at
all, refuting "both nodes of the pair receive a small random nudging
force". -/
theorem C5_counterexample :
    Grafatko.weaklyConnected [(0, 1)] 2 0 1 = true ∧
    Grafatko.pairStep [(0, 1)] 2 0 1
        ([⟨(0, 0), (0, 0), false⟩, ⟨(0, 0), (0, 0), false⟩],
          [((1 : ℝ) / 2, (1 : ℝ) / 3)]) =
      ([⟨(0, 0), ((1 : ℝ) / 2, (1 : ℝ) / 3), false⟩,
        ⟨(0, 0), (0, 0), false⟩], []) ∧
    ¬ ((Grafatko.getNode (Grafatko.pairStep [(0, 1)] 2 0 1
        ([⟨(0, 0), (0, 0), false⟩, ⟨(0, 0), (0, 0), false⟩],
          [((1 : ℝ) / 2, (1 : ℝ) / 3)])).1 1).force ≠ (0, 0)) := by
  have hstep := pairStep_coincident [(0, 1)] 2 0 1
    [⟨(0, 0), (0, 0), false⟩, ⟨(0, 0), (0, 0), false⟩]
    [((1 : ℝ) / 2, (1 : ℝ) / 3)] (by decide) (vdist_self _)
  refine ⟨by decide, ?_, ?_⟩
  · rw [hstep]
    norm_num [Grafatko.addForceAt, Grafatko.getNode, Grafatko.dfltDNode,
      Grafatko.DNode.add_force, List.set]
  · rw [hstep]
    exact fun hne => hne rfl

/-- Helper: folding a function that ignores its second argument and
returns the state is the identity. -/
theorem foldl_const {α β : Type} (l : List β) (st : α) :
    l.foldl (fun s _ => s) st = st := by
  induction l generalizing st with
  | nil => rfl
  | cons b l ih => exact ih st

/-- Helper: the gravity loop never fires — its condition is
`node is not root and weakly_connected(node, root)` with `root` bound to
a boolean, i.e. `True and False`. -/
theorem gravityLoop_id (n : ℕ) (st : List Grafatko.DNode) :
    Grafatko.gravityLoop n st = st := by
  unfold Grafatko.gravityLoop
  rw [show (Grafatko.nodeIsNotBoolRoot && Grafatko.weaklyConnectedToBoolRoot) =
    false from rfl]
  simp only [Bool.false_eq_true, if_false]
  exact foldl_const _ _

/-- Helper: one full pairwise/integration phase on the two-node graph
with an edge `(0, 1)` and both nodes at the origin: the pair is
coincident, so node 0 gets the drawn random vector added to its force
and then integrates it into its position; node 1 integrates its initial
force only. -/
theorem forcePhase_two_coincident (f0 f1 r : ℝ × ℝ) (rng : List (ℝ × ℝ)) :
    Grafatko.forcePhase [(0, 1)] 2
      ([⟨(0, 0), f0, false⟩, ⟨(0, 0), f1, false⟩], r :: rng) =
      ([⟨(f0.1 + r.1, f0.2 + r.2), (0, 0), false⟩, ⟨f1, (0, 0), false⟩],
        rng) := by
  have hstep := pairStep_coincident [(0, 1)] 2 0 1
    [⟨(0, 0), f0, false⟩, ⟨(0, 0), f1, false⟩] (r :: rng) (by decide)
    (vdist_self _)
  unfold Grafatko.forcePhase
  rw [show List.range 2 = [0, 1] from rfl, List.foldl_cons, List.foldl_cons,
    List.foldl_nil]
  unfold Grafatko.outerBody Grafatko.innerLoop
  rw [show List.range' (0 + 1) (2 - (0 + 1)) = [1] from rfl,
    show List.range' (1 + 1) (2 - (1 + 1)) = ([] : List ℕ) from rfl,
    List.foldl_cons, List.foldl_nil, List.foldl_nil]
  rw [hstep]
  norm_num [Grafatko.addForceAt, Grafatko.getNode, Grafatko.dfltDNode,
    Grafatko.DNode.add_force, Grafatko.DNode.evaluate_forces,
    Grafatko.nodeIsBoolRoot, List.set]

/-- C5 (amended): for the two-node graph with an edge `(0, 1)` and both
nodes at (0, 0), one tick with forces enabled nudges node 0 by the drawn
random vector while node 1 stays in place; the resulting positions
differ whenever the drawn vector is nonzero (and both positions are
ordinary real pairs — no NaN/infinity exists in the exact model). -/
theorem C5_amended (r1 r2 : ℚ) (h : ¬(r1 = 0 ∧ r2 = 0)) :
    ((Grafatko.update ⟨[⟨(0, 0), (0, 0), false⟩, ⟨(0, 0), (0, 0), false⟩],
        [(0, 1)], none⟩ true [((r1 : ℝ), (r2 : ℝ))]).1.nodes.map
      Grafatko.DNode.pos) = [((r1 : ℝ), (r2 : ℝ)), (0, 0)] ∧
    ((r1 : ℝ), (r2 : ℝ)) ≠ ((0 : ℝ), 0) := by
  constructor
  · unfold Grafatko.update
    dsimp only
    rw [if_neg (show ¬((Option.isSome (none : Option ℕ) && true) = true)
      from by decide)]
    rw [if_pos (show (true = true) from rfl)]
    rw [show ([⟨(0, 0), (0, 0), false⟩, ⟨(0, 0), (0, 0), false⟩] :
      List Grafatko.DNode).length = 2 from rfl]
    rw [forcePhase_two_coincident (0, 0) (0, 0) ((r1 : ℝ), (r2 : ℝ)) []]
    norm_num
  · intro heq
    apply h
    have h1 := congrArg Prod.fst heq
    have h2 := congrArg Prod.snd heq
    dsimp only at h1 h2
    rw [Rat.cast_eq_zero] at h1 h2
    exact ⟨h1, h2⟩

/-- C5 (witness): the amended theorem applied with the drawn random
vector (1, 1). -/
theorem C5_amended_witness :
    ¬((1 : ℚ) = 0 ∧ (1 : ℚ) = 0) ∧
    (((Grafatko.update ⟨[⟨(0, 0), (0, 0), false⟩, ⟨(0, 0), (0, 0), false⟩],
        [(0, 1)], none⟩ true [(((1 : ℚ) : ℝ), ((1 : ℚ) : ℝ))]).1.nodes.map
      Grafatko.DNode.pos) = [(((1 : ℚ) : ℝ), ((1 : ℚ) : ℝ)), (0, 0)] ∧
    (((1 : ℚ) : ℝ), ((1 : ℚ) : ℝ)) ≠ ((0 : ℝ), 0)) :=
  ⟨by decide, C5_amended 1 1 (by decide)⟩

/-- Helper: the tree-layer loop on the rooted two-node graph adds only
zero forces (each BFS layer is a single node, so every node sits at its
layer's pivot). -/
theorem treeLoop_two_coincident :
    Grafatko.treeLoop [(0, 1)] 2 0
      [⟨(0, 0), (0, 0), false⟩, ⟨(0, 0), (0, 0), false⟩] =
      [⟨(0, 0), (0, 0), false⟩, ⟨(0, 0), (0, 0), false⟩] := by
  unfold Grafatko.treeLoop
  rw [show List.range 2 = [0, 1] from rfl, List.foldl_cons, List.foldl_cons,
    List.foldl_nil]
  rw [show Grafatko.layerNodes [(0, 1)] 2 0 0 = [0] from by decide]
  rw [show Grafatko.layerNodes [(0, 1)] 2 0 1 = [1] from by decide]
  unfold Grafatko.layerForce Grafatko.vaverage
  norm_num [Grafatko.addForceAt, Grafatko.getNode, Grafatko.dfltDNode,
    Grafatko.DNode.add_force, List.set]

/-- C1: code bug — in `Canvas.update` the walrus assignment
`root := self.graph.get_root() is not None and self.forces` binds `root`
to a boolean, so the guard `n1 is root` (meant to discard the root's
accumulated force) never fires and the designated root integrates its
force like any other node.  Concretely: two coincident nodes joined by
an edge, node 0 designated root, forces on, one tick — the root moves
from (0, 0) to (1/2, 1/2) instead of staying put. -/
theorem C1_code_bug_eval :
    ((Grafatko.update ⟨[⟨(0, 0), (0, 0), false⟩, ⟨(0, 0), (0, 0), false⟩],
        [(0, 1)], some 0⟩ true [((1 : ℝ) / 2, (1 : ℝ) / 2)]).1.nodes.map
      Grafatko.DNode.pos) = [((1 : ℝ) / 2, (1 : ℝ) / 2), (0, 0)] ∧
    ((1 : ℝ) / 2, (1 : ℝ) / 2) ≠ ((0 : ℝ), 0) := by
  constructor
  · unfold Grafatko.update
    dsimp only
    rw [if_pos (show ((Option.isSome (some 0) && true) = true) from rfl)]
    rw [show ([⟨(0, 0), (0, 0), false⟩, ⟨(0, 0), (0, 0), false⟩] :
      List Grafatko.DNode).length = 2 from rfl]
    rw [treeLoop_two_coincident, gravityLoop_id]
    rw [if_pos (show (true = true) from rfl)]
    rw [forcePhase_two_coincident (0, 0) (0, 0) ((1 : ℝ) / 2, (1 : ℝ) / 2) []]
    norm_num
  · intro heq
    have h1 := congrArg Prod.fst heq
    dsimp only at h1
    norm_num at h1
